import Mathlib

/-!
Verification development for the OneModel compiler (Python repository
`FernandoNobel/OneModel`).  The definitions below shallowly embed the parts
of the repository the claims are about:

* the math tokenizer contract shared by both numerical backends,
* the `Matlab` exporter of `src/onemodel/export/matlab/matlab.py`
  (`math2matlab`, `states`, `generate_param`, `generate_ode`),
* the `Matlab` exporter of `src/onemodel/sbml2dae/matlab.py`
  (`string2matlab`, `writeLocalStates`),
* the namespace flattening / SBML export pipeline (its implementation lives
  in `onemodel/core`, which is exercised by `tests/core/objects/test_reaction.py`),
* the user-defined `Function.execute` of `src/onemodel/values/function.py`.

Python strings become `String`, Python lists become `List`, mutation becomes
explicit state passing, and `raise`/failure becomes `Except`/`Option`.
-/

namespace OneModelSpec

/-! ## Math tokenizer (shared contract, §4.1 of the spec)

Modelled from the spec: the module `onemodel/math_expr.py` (class `MathLexer`
with `generate_tokens` and `identifier_names`) is not under `src/`; the spec
describes it as a deterministic total lexer producing typed tokens
(IDENTIFIER, OPERATOR, NUMBER, PUNCT) where unrecognized characters pass
through as PUNCT tokens verbatim, and `identifier_names` returns the
identifiers of an expression, never classifying numeric literals or
operators as identifiers. -/

inductive MathTokenType where
  | IDENTIFIER
  | OPERATOR
  | NUMBER
  | PUNCT
deriving DecidableEq, Repr

structure MathToken where
  type : MathTokenType
  value : String
deriving DecidableEq, Repr

def isIdentStart (c : Char) : Bool := c.isAlpha || c == '_'

def isIdentChar (c : Char) : Bool := c.isAlphanum || c == '_'

def isNumChar (c : Char) : Bool := c.isDigit || c == '.'

def isOpChar (c : Char) : Bool :=
  c == '+' || c == '-' || c == '*' || c == '/' || c == '^'

/-- One lexing step: consume a maximal token from the front of the character
list.  Fuel-driven recursion; one character is consumed per step at least,
so fuel equal to the input length always suffices. -/
def lexAux : Nat → List Char → List MathToken
  | 0, _ => []
  | _, [] => []
  | fuel + 1, c :: cs =>
    if isIdentStart c then
      let body := cs.takeWhile isIdentChar
      let rest := cs.dropWhile isIdentChar
      { type := .IDENTIFIER, value := String.mk (c :: body) } :: lexAux fuel rest
    else if c.isDigit then
      let body := cs.takeWhile isNumChar
      let rest := cs.dropWhile isNumChar
      { type := .NUMBER, value := String.mk (c :: body) } :: lexAux fuel rest
    else if isOpChar c then
      { type := .OPERATOR, value := String.mk [c] } :: lexAux fuel cs
    else
      { type := .PUNCT, value := String.mk [c] } :: lexAux fuel cs

/-- `MathLexer(text).generate_tokens()`. -/
def tokenize (s : String) : List MathToken :=
  lexAux s.data.length s.data

/-- `MathLexer(text).identifier_names()`: the identifier tokens of the
expression. -/
def identifierNames (s : String) : List String :=
  (tokenize s).filterMap fun t =>
    if t.type = MathTokenType.IDENTIFIER then some t.value else none

/-! ## Expression rewrite of `export/matlab/matlab.py` (`Matlab.math2matlab`)

Source, lines 27–57: loop over the tokens; an IDENTIFIER contributes
`'p.' + value` when the value is in `onemodel.parameters_name` and
contributes `value` when it is in `onemodel.variables_name` (two separate
`if`s, so an identifier in neither contributes nothing); an OPERATOR whose
value is one of `*`, `/`, `^` contributes `'.' + value`; every other token
contributes its value. -/

def math2matlabToken (pn vn : List String) (t : MathToken) : String :=
  match t.type with
  | .IDENTIFIER =>
      (if t.value ∈ pn then "p." ++ t.value else "")
        ++ (if t.value ∈ vn then t.value else "")
  | .OPERATOR =>
      if t.value = "*" || t.value = "/" || t.value = "^" then
        "." ++ t.value
      else t.value
  | _ => t.value

def math2matlab (pn vn : List String) (expr : String) : String :=
  String.join ((tokenize expr).map (math2matlabToken pn vn))

/-! ## Expression rewrite of `sbml2dae/matlab.py` (`Matlab.string2matlab`)

Source, lines 319–350: loop over the tokens; a NAME token that is one of
the DAE model's parameter ids contributes `'p.' + value`; an OP token in
`*`, `/`, `^` contributes `'.' + value`; an OP token in `+`, `-` contributes
`' ' + value + ' '`; every other token contributes its value verbatim.
The Python implementation tokenizes with the standard-library `tokenize`
module (skipping its ENCODING token); that tokenizer is external, and per
the spec (§2, §4.1) both backends consume the same math-token contract, so
the shared `tokenize` above is used here. -/

def string2matlabToken (ps : List String) (t : MathToken) : String :=
  match t.type with
  | .IDENTIFIER => if t.value ∈ ps then "p." ++ t.value else t.value
  | .OPERATOR =>
      if t.value = "*" || t.value = "/" || t.value = "^" then
        "." ++ t.value
      else if t.value = "+" || t.value = "-" then
        " " ++ t.value ++ " "
      else t.value
  | _ => t.value

def string2matlab (ps : List String) (expr : String) : String :=
  String.join ((tokenize expr).map (string2matlabToken ps))

/-! ## Claim-side rewrite (spec §4.6 wording)

The rewrite as the specification words it: a parameter identifier is
prefixed `p.`, a state-variable identifier is emitted unprefixed, the
operators `*`, `/`, `^` get the broadcast marker `.`, and every other token
passes through unchanged. -/

def specRewriteToken (pn vn : List String) (t : MathToken) : String :=
  match t.type with
  | .IDENTIFIER =>
      if t.value ∈ pn then "p." ++ t.value
      else if t.value ∈ vn then t.value
      else t.value
  | .OPERATOR =>
      if t.value = "*" || t.value = "/" || t.value = "^" then
        "." ++ t.value
      else t.value
  | _ => t.value

def specRewrite (pn vn : List String) (expr : String) : String :=
  String.join ((tokenize expr).map (specRewriteToken pn vn))

/-! ## The model read by `export/matlab/matlab.py`

Modelled from the spec (§3): the `OneModel` class itself lives in
`onemodel/onemodel.py`, which is not under `src/`; per the spec it carries
derived registries — ordered sequences of parameters and variables
(species), each with its flattened id.  The exporter reads
`onemodel.parameters`, `onemodel.parameters_name`, `onemodel.variables`
and `onemodel.variables_name`; the `_name` accessors are modelled as
derived name lists of those registries, a fresh list per read: §5 states
that compilation is a pure, deterministic function with no mutable state
beyond the namespace tree, and §8 requires byte-identical re-export, so
`known_vars = self.onemodel.parameters_name` in `Matlab.states` binds a
local list whose `append`s never write the model, and every later read of
`parameters_name` (in particular inside `math2matlab`) sees the clean
registry again.  `parameters_name`/`variables_name` are carried as fields
holding those derived lists.  Numeric values are carried as their printed
strings. -/

inductive EquationType where
  | ODE
  | ALGEBRAIC
  | SUBSTITUTION
deriving DecidableEq, Repr

structure MEquation where
  equation_type : EquationType
  value : String
  comment : String
deriving DecidableEq, Repr

structure MVariable where
  name : String
  value : String
  comment : String
  equation : MEquation
deriving DecidableEq, Repr

structure MParameter where
  name : String
  value : String
  comment : String
deriving DecidableEq, Repr

structure OneModelM where
  name : String
  parameters : List MParameter
  parameters_name : List String
  variables' : List MVariable
  variables_name : List String
deriving DecidableEq, Repr

/-- First half of `Matlab.states` (source lines 76–92): walk the variables
with a 1-based counter, emitting one `x(i,:)` binding line per ODE or
ALGEBRAIC variable and appending each bound name to `known_vars`.
Returns (emitted chunks, appended names, final counter). -/
def statesPhase1 : Nat → List MVariable → List String × List String × Nat
  | i, [] => ([], [], i)
  | i, v :: rest =>
    match v.equation.equation_type with
    | .ODE =>
        let r := statesPhase1 (i + 1) rest
        (s!"{v.name} = x({i},:);\t % {v.comment}\n" :: r.1, v.name :: r.2.1, r.2.2)
    | .ALGEBRAIC =>
        let r := statesPhase1 (i + 1) rest
        (s!"{v.name} = x({i},:);\t % (algebraic) {v.comment}\n" :: r.1,
          v.name :: r.2.1, r.2.2)
    | .SUBSTITUTION => statesPhase1 i rest

/-- One iteration of the `for var in vars_` body inside the `while` loop of
`Matlab.states` (source lines 103–122).  `adv` is the `advance` flag, reset
to `0` at the top of each pass.  A variable already in the local
`known_vars` list is skipped; a SUBSTITUTION variable whose identifier
dependencies are all known is resolved: its name is appended to the local
list and its equation is rewritten by `math2matlab`, which reads the
model's own registries (`pn`, `vn`); otherwise the source checks
`if advance == 0` *inside* the loop body and raises `ValueError`
immediately. -/
def statesPass (pn vn : List String) :
    List MVariable → List String → Bool → String →
      Except String (List String × String × Bool)
  | [], known, adv, acc => .ok (known, acc, adv)
  | v :: rest, known, adv, acc =>
    if v.name ∈ known then
      statesPass pn vn rest known adv acc
    else if v.equation.equation_type = EquationType.SUBSTITUTION
        ∧ ∀ d ∈ identifierNames v.equation.value, d ∈ known then
      statesPass pn vn rest (known ++ [v.name]) true
        (acc ++ s!"{v.name} = {math2matlab pn vn v.equation.value}; % {v.comment}\n")
    else if adv then
      statesPass pn vn rest known adv acc
    else
      .error "dependencies of substitution varibles cannot be satisfied."

/-- The `while len(known_vars) < known_vars_max` loop of `Matlab.states`.
Each pass either resolves at least one variable or raises, so fuel
`variables.length + 1` always suffices; the fuel-exhausted branch stands in
for the one situation in which the Python loop would spin forever (a pass
that resolves nothing and raises nothing, possible only when every variable
name is already known while the count bound is not yet reached). -/
def statesLoop (pn vn : List String) (vars : List MVariable) (maxN : Nat) :
    Nat → List String → String → Except String String
  | 0, _, _ => .error "states loop made no progress"
  | fuel + 1, known, acc =>
    if known.length < maxN then
      match statesPass pn vn vars known false "" with
      | .error e => .error e
      | .ok (known', add, _) => statesLoop pn vn vars maxN fuel known' (acc ++ add)
    else .ok acc

/-- `Matlab.states` (source lines 59–124): emit the `x(i,:)` bindings, then
resolve the substitution variables against the local `known_vars` list
(seeded from the derived parameter-name list plus the bound state names)
and emit their assignments.  Returns the generated text; the local list is
discarded with the call, the model is untouched. -/
def states (m : OneModelM) : Except String String :=
  let p1 := statesPhase1 1 m.variables'
  let known := m.parameters_name ++ p1.2.1
  let exprs := "\n% States:\n" ++ String.join p1.1
    ++ "\n% Calculate substitution variables.\n"
  let maxN := m.parameters.length + m.variables'.length
  statesLoop m.parameters_name m.variables_name m.variables' maxN
    (m.variables'.length + 1) known exprs

/-- Initial-condition rows of `Matlab.generate_param` (source lines
151–155): one row per ODE or ALGEBRAIC variable, in declaration order. -/
def x0Chunks : List MVariable → List String
  | [] => []
  | v :: rest =>
    match v.equation.equation_type with
    | .ODE => s!"\t{v.value} % {v.name}\n" :: x0Chunks rest
    | .ALGEBRAIC => s!"\t{v.value} % {v.name} (Algebraic)\n" :: x0Chunks rest
    | .SUBSTITUTION => x0Chunks rest

/-- The `M` list of `Matlab.generate_param` (source lines 162–167): 1 per
ODE variable, 0 per ALGEBRAIC variable, in declaration order. -/
def massDiag : List MVariable → List Nat
  | [] => []
  | v :: rest =>
    match v.equation.equation_type with
    | .ODE => 1 :: massDiag rest
    | .ALGEBRAIC => 0 :: massDiag rest
    | .SUBSTITUTION => massDiag rest

/-- The mass-matrix rows written by `Matlab.generate_param` (source lines
169–178): row `i` is `i` zeros, then `M[i]`, then `i_max - i - 1` zeros. -/
def massRows (M : List Nat) : List (List Nat) :=
  (List.range M.length).map fun i =>
    List.replicate i 0 ++ M.getD i 0 :: List.replicate (M.length - i - 1) 0

/-- Text of one mass-matrix row: the source writes a tab, `'0 '` for each
leading zero, `f'{M[i]} '`, `'0 '` for each trailing zero, and a newline. -/
def massRowText (row : List Nat) : String :=
  "\t" ++ String.join (row.map fun d => s!"{d} ") ++ "\n"

/-- `Matlab.generate_param` (source lines 126–184), with the file write
modelled as returning the written text.  It does not call `states` and
touches no registry. -/
def generate_param (m : OneModelM) : String :=
  s!"function [p,x0,M] = {m.name}_param()\n"
    ++ "% This script was autogenerated with onemodel.\n\n"
    ++ "% Default parameters value.\n"
    ++ String.join (m.parameters.map fun par => s!"p.{par.name} = {par.value};\n")
    ++ "\n% Default initial conditions.\n"
    ++ "x0 = [\n"
    ++ String.join (x0Chunks m.variables')
    ++ "];\n"
    ++ "\n% Mass matrix for algebraic simulations.\n"
    ++ "M = [\n"
    ++ String.join ((massRows (massDiag m.variables')).map massRowText)
    ++ "];\n"
    ++ "\nend\n"

/-- The `dx(i,1)` section of `Matlab.generate_ode` (source lines 216–228):
a 1-based counter over ODE/ALGEBRAIC variables in declaration order; an ODE
row is the rewritten equation, an ALGEBRAIC row is `-name + rewritten`. -/
def dxChunks (pn vn : List String) : Nat → List MVariable → List String
  | _, [] => []
  | i, v :: rest =>
    match v.equation.equation_type with
    | .ODE =>
        (s!"% der({v.name}) \"{v.equation.comment}\"\n"
          ++ s!"dx({i},1) = {math2matlab pn vn v.equation.value};\n\n")
          :: dxChunks pn vn (i + 1) rest
    | .ALGEBRAIC =>
        (s!"% der({v.name}) (algebraic) \"{v.equation.comment}\"\n"
          ++ s!"dx({i},1) = -{v.name} + {math2matlab pn vn v.equation.value};\n\n")
          :: dxChunks pn vn (i + 1) rest
    | .SUBSTITUTION => dxChunks pn vn i rest

/-- `Matlab.generate_ode` (source lines 186–231), with the file write
modelled as returning the written text: header comments, the `states`
section, then the `dx` rows rewritten against the model's registries. -/
def generate_ode (m : OneModelM) : Except String String :=
  match states m with
  | .error e => .error e
  | .ok statesText =>
    .ok (s!"function [dx] = {m.name}_ode(t,x,p)\n"
        ++ "% This function was autogenerated with onemodel.\n"
        ++ "\n% Args:\n"
        ++ "%\t t Current time in the simulation.\n"
        ++ "%\t x Array with the state value.\n"
        ++ "%\t p Struct with the parameters.\n"
        ++ "\n% Return:\n"
        ++ "%\t dx Array with the ODE.\n"
        ++ statesText
        ++ "\n"
        ++ String.join (dxChunks m.parameters_name m.variables_name 1 m.variables')
        ++ "end\n")

/-- `Matlab.generate_states` (source lines 233–283), with the file write
modelled as returning the written text: header, the `states` section, the
saved time, one `out.` line per ODE/ALGEBRAIC variable, one per parameter,
and one per SUBSTITUTION variable. -/
def generate_states (m : OneModelM) : Except String String :=
  match states m with
  | .error e => .error e
  | .ok statesText =>
    .ok (s!"function [out] = {m.name}_states(t,x,p)\n"
        ++ "% This function was autogenerated with onemodel.\n"
        ++ statesText
        ++ "\n% Save simulation time.\n"
        ++ "out.t = t;\n"
        ++ "\n% Save ODE variables.\n"
        ++ String.join (m.variables'.map fun v =>
            match v.equation.equation_type with
            | .ODE => s!"out.{v.name} = {v.name}; % {v.comment}\n"
            | .ALGEBRAIC => s!"out.{v.name} = {v.name}; % {v.comment} (Algebraic)\n"
            | .SUBSTITUTION => "")
        ++ "\n% Save parameters.\n"
        ++ String.join (m.parameters.map fun par =>
            s!"out.{par.name} = p.{par.name}*ones(size(t)); % {par.comment}\n")
        ++ "\n% Calculate and save extended states.\n"
        ++ String.join (m.variables'.map fun v =>
            match v.equation.equation_type with
            | .SUBSTITUTION => s!"out.{v.name} = {v.name}.*ones(size(t)); % {v.comment}\n"
            | _ => "")
        ++ "\nend\n")

/-- The Matlab export operations of `export/matlab/matlab.py` that the
round-trip claim ranges over. -/
inductive ExportOp where
  | genParam
  | genOde
  | genStates
deriving DecidableEq, Repr

/-- Run one export operation: the text it writes (or the raised error) and
the model it leaves behind.  Each operation only reads the model — the
derived-registry accessors hand it fresh name lists — so the model comes
back as it went in.  (In Python a raised error aborts the run; here the
error value is carried and the untouched model threaded on.) -/
def runOp (m : OneModelM) : ExportOp → Except String String × OneModelM
  | .genParam => (.ok (generate_param m), m)
  | .genOde => (generate_ode m, m)
  | .genStates => (generate_states m, m)

/-- Run a sequence of export operations, threading the model through each
call, and collect the generated texts in order. -/
def runOps (m : OneModelM) : List ExportOp → List (Except String String) × OneModelM
  | [] => ([], m)
  | op :: rest =>
    let r := runOp m op
    let rr := runOps r.2 rest
    (r.1 :: rr.1, rr.2)

/-- Is a variable an ODE or ALGEBRAIC state (the ones that carry a state
index)? -/
def isOdealg (v : MVariable) : Bool :=
  v.equation.equation_type == EquationType.ODE
    || v.equation.equation_type == EquationType.ALGEBRAIC

/-- Claim-side indexing rule: a single running counter that increments once
per ODE or ALGEBRAIC state encountered in declaration order, paired with
the state it indexes. -/
def indexedOdealg : Nat → List MVariable → List (Nat × MVariable)
  | _, [] => []
  | i, v :: rest =>
    if isOdealg v then (i, v) :: indexedOdealg (i + 1) rest
    else indexedOdealg i rest

/-! ## Spec-side substitution resolver (§4.5)

Modelled from the spec: §4.5 prescribes fixed-point iteration by *full*
scans — "repeatedly scan the still-unresolved substitution variables; a
variable becomes resolved in this pass if every identifier in
`identifier_names(expression)` is already a known parameter or a resolved
variable", succeeding when all are resolved and failing with
`CyclicOrMissingDependencyError` exactly when a full scan resolves zero new
variables while unresolved variables remain.  This is the behaviour the
claims assert of `Matlab.states`; it is compared below against the
embedding of the source. -/

/-- One full spec scan: the names newly resolved during the pass, in
declaration order (a name resolved earlier in the same pass counts as
known for later variables, as in the source's single-pass loop). -/
def specScanOnce : List String → List MVariable → List String
  | _, [] => []
  | known, v :: rest =>
    if v.equation.equation_type = EquationType.SUBSTITUTION ∧ v.name ∉ known
        ∧ ∀ d ∈ identifierNames v.equation.value, d ∈ known then
      v.name :: specScanOnce (known ++ [v.name]) rest
    else specScanOnce known rest

/-- Spec §4.5 fixed point: iterate full scans; fail when a full scan
resolves nothing while unresolved substitution variables remain.  Each
successful scan resolves at least one variable, so fuel
`vars.length + 1` suffices. -/
def specResolveLoop (vars : List MVariable) :
    Nat → List String → List String → Except String (List String)
  | 0, _, _ => .error "spec resolver out of fuel"
  | fuel + 1, known, order =>
    if vars.any fun v =>
        v.equation.equation_type == EquationType.SUBSTITUTION
          && !(known.contains v.name) then
      match specScanOnce known vars with
      | [] => .error "CyclicOrMissingDependencyError"
      | newNames => specResolveLoop vars fuel (known ++ newNames) (order ++ newNames)
    else .ok order

/-- The spec's substitution resolution for a model: parameters and the
ODE/ALGEBRAIC states are known up front; returns the emission order of the
substitution variables. -/
def specResolve (m : OneModelM) : Except String (List String) :=
  specResolveLoop m.variables' (m.variables'.length + 1)
    (m.parameters_name ++ (statesPhase1 1 m.variables').2.1) []

/-! ## `sbml2dae/matlab.py`: `Matlab.writeLocalStates` (source lines 204–243)

The DAE model interface (`DaeModel`, spec §6) supplies an ordered state
list `{id, type, equation, ...}`; `type` uses the source's spelling
`ASSIGMENT` for substitution states.  `getStates(math_expr)` (source lines
352–367) returns the identifiers of the expression that are state ids. -/

inductive StateType where
  | ODE
  | ALGEBRAIC
  | ASSIGMENT
deriving DecidableEq, Repr

structure DaeState where
  id : String
  stype : StateType
  equation : String
deriving DecidableEq, Repr

/-- `Matlab.getStates` of `sbml2dae/matlab.py`: identifiers of the
expression that name states of the DAE model. -/
def daeDependencies (stateIds : List String) (expr : String) : List String :=
  (identifierNames expr).filter fun n => stateIds.contains n

/-- One full `for state in self.dae.getStates()` pass of the `while` loop in
`writeLocalStates` (source lines 226–241): non-ASSIGMENT states are
skipped; an ASSIGMENT state whose state dependencies are all known is
emitted and its id appended.  The source's guard
`if state in known_states: continue` compares the state record against a
list of id strings and therefore never fires — an already-resolved state is
re-emitted on every later pass. -/
def daePass (ps stateIds : List String) :
    List DaeState → List String → String → List String × String
  | [], known, acc => (known, acc)
  | s :: rest, known, acc =>
    if s.stype = StateType.ASSIGMENT then
      if (daeDependencies stateIds s.equation).all (fun d => known.contains d) then
        daePass ps stateIds rest (known ++ [s.id])
          (acc ++ s!"\t\t\t{s.id} = {string2matlab ps s.equation};\n")
      else daePass ps stateIds rest known acc
    else daePass ps stateIds rest known acc

/-- The `while len(known_states) != states_num` loop of `writeLocalStates`
(source lines 226–241).  The source has no progress check and no error
path, so a pass that resolves nothing leaves the condition unchanged and
the Python loop never terminates; `none` reports exhausted fuel. -/
def daeLoop (ps stateIds : List String) (sts : List DaeState) (nTotal : Nat) :
    Nat → List String → String → Option (List String × String)
  | 0, _, _ => none
  | fuel + 1, known, acc =>
    if known.length ≠ nTotal then
      let r := daePass ps stateIds sts known acc
      daeLoop ps stateIds sts nTotal fuel r.1 r.2
    else some (known, acc)

/-! ## Namespace tree, flattening and SBML export

Modelled from the spec: the `onemodel/core` package (the `Object` namespace
tree, the flattener and the SBML exporter exercised by
`tests/core/objects/test_reaction.py`) is not under `src/`.  The embedding
follows §3 (data model), §4.3 (flattening: depth-first traversal in
child-insertion order, `qualified_id` joins ancestor names — root excluded —
with `__`; reactant/product names resolved by searching the reaction's own
scope then each ancestor scope outward, first match wins) and §4.4 (SBML
structure; the kinetic law is parsed by recursive descent over the §4.1
tokens into a binary operator tree and serialized as MathML with each
identifier resolved by the same outward rule). -/

mutual

inductive OMObject where
  | species (initialValue : String)
  | parameter (value : String)
  | reaction (reactants products : List String) (kineticLaw : String)
  | scope (children : OMForest)

/-- The ordered child map of a scope: a name-to-object sequence in
insertion order. -/
inductive OMForest where
  | nil
  | cons (name : String) (obj : OMObject) (rest : OMForest)

end

/-- Flattened qualified id: ancestor scope names then the own name, joined
with `__`; for a root-scope symbol the path is empty and the id is the bare
name. -/
def qualify (path : List String) (n : String) : String :=
  String.intercalate "__" (path ++ [n])

/-- A reaction collected during flattening: qualified id, reactant and
product name-references, kinetic-law text, and the scope path it was
declared in. -/
structure FlatReaction where
  id : String
  reactants : List String
  products : List String
  kineticLaw : String
  path : List String
deriving DecidableEq, Repr

structure FlatModel where
  speciesIds : List String
  parameterIds : List String
  reactions : List FlatReaction
deriving DecidableEq, Repr

def FlatModel.append (a b : FlatModel) : FlatModel :=
  ⟨a.speciesIds ++ b.speciesIds, a.parameterIds ++ b.parameterIds,
    a.reactions ++ b.reactions⟩

/-- Depth-first flattening in child-insertion order (§4.3). -/
def flattenForest (path : List String) : OMForest → FlatModel
  | .nil => ⟨[], [], []⟩
  | .cons n (.species _) rest =>
      FlatModel.append ⟨[qualify path n], [], []⟩ (flattenForest path rest)
  | .cons n (.parameter _) rest =>
      FlatModel.append ⟨[], [qualify path n], []⟩ (flattenForest path rest)
  | .cons n (.reaction r p kl) rest =>
      FlatModel.append ⟨[], [], [⟨qualify path n, r, p, kl, path⟩]⟩
        (flattenForest path rest)
  | .cons n (.scope ch) rest =>
      FlatModel.append (flattenForest (path ++ [n]) ch) (flattenForest path rest)

/-- Exact child lookup by name. -/
def lookupChild : OMForest → String → Option OMObject
  | .nil, _ => none
  | .cons n obj rest, q => if n = q then some obj else lookupChild rest q

/-- Children of the scope reached by descending a qualifier path from the
root. -/
def childrenAt : OMForest → List String → Option OMForest
  | ch, [] => some ch
  | ch, q :: qs =>
    match lookupChild ch q with
    | some (.scope ch') => childrenAt ch' qs
    | _ => none

/-- Does the scope at `path` declare a species or parameter named `n`? -/
def hasSymbol (root : OMForest) (path : List String) (n : String) : Bool :=
  match childrenAt root path with
  | some ch =>
    match lookupChild ch n with
    | some (.species _) => true
    | some (.parameter _) => true
    | _ => false
  | none => false

/-- The scope chain searched for a name: the declaring scope first, then
each ancestor outward, ending at the root. -/
def scopeChain (path : List String) : List (List String) :=
  ((List.range (path.length + 1)).reverse).map fun k => path.take k

/-- Outward reference resolution (§4.3): first scope in the chain declaring
the name wins; the result is that match's qualified id.  `none` is the
`UnresolvedReferenceError` case. -/
def resolveRef (root : OMForest) (path : List String)
    (n : String) : Option String :=
  ((scopeChain path).find? fun p => hasSymbol root p n).map fun p => qualify p n

/-! ### Kinetic-law expression tree and MathML (§4.4) -/

inductive MExpr where
  | ident (s : String)
  | num (s : String)
  | binop (op : String) (l r : MExpr)
deriving DecidableEq, Repr

def isWhitespaceTok (t : MathToken) : Bool :=
  t.type == MathTokenType.PUNCT && t.value.all (·.isWhitespace)

mutual

/-- expression := term ((`+` | `-`) term)* -/
def parseExpr : Nat → List MathToken → Option (MExpr × List MathToken)
  | 0, _ => none
  | fuel + 1, toks =>
    match parseTerm fuel toks with
    | some (l, rest) => parseExprRest fuel l rest
    | none => none

def parseExprRest : Nat → MExpr → List MathToken → Option (MExpr × List MathToken)
  | 0, _, _ => none
  | fuel + 1, l, t :: rest =>
    if t.type = MathTokenType.OPERATOR ∧ (t.value = "+" ∨ t.value = "-") then
      match parseTerm fuel rest with
      | some (r, rest') => parseExprRest fuel (.binop t.value l r) rest'
      | none => none
    else some (l, t :: rest)
  | _ + 1, l, [] => some (l, [])

/-- term := power ((`*` | `/`) power)* -/
def parseTerm : Nat → List MathToken → Option (MExpr × List MathToken)
  | 0, _ => none
  | fuel + 1, toks =>
    match parsePower fuel toks with
    | some (l, rest) => parseTermRest fuel l rest
    | none => none

def parseTermRest : Nat → MExpr → List MathToken → Option (MExpr × List MathToken)
  | 0, _, _ => none
  | fuel + 1, l, t :: rest =>
    if t.type = MathTokenType.OPERATOR ∧ (t.value = "*" ∨ t.value = "/") then
      match parsePower fuel rest with
      | some (r, rest') => parseTermRest fuel (.binop t.value l r) rest'
      | none => none
    else some (l, t :: rest)
  | _ + 1, l, [] => some (l, [])

/-- power := atom (`^` power)? (right-associative) -/
def parsePower : Nat → List MathToken → Option (MExpr × List MathToken)
  | 0, _ => none
  | fuel + 1, toks =>
    match parseAtom fuel toks with
    | some (l, t :: rest) =>
      if t.type = MathTokenType.OPERATOR ∧ t.value = "^" then
        match parsePower fuel rest with
        | some (r, rest') => some (.binop "^" l r, rest')
        | none => none
      else some (l, t :: rest)
    | some (l, []) => some (l, [])
    | none => none

/-- atom := identifier | number | `(` expression `)` -/
def parseAtom : Nat → List MathToken → Option (MExpr × List MathToken)
  | 0, _ => none
  | fuel + 1, t :: rest =>
    match t.type with
    | .IDENTIFIER => some (.ident t.value, rest)
    | .NUMBER => some (.num t.value, rest)
    | .PUNCT =>
      if t.value = "(" then
        match parseExpr fuel rest with
        | some (e, t' :: rest') =>
          if t'.type = MathTokenType.PUNCT ∧ t'.value = ")" then some (e, rest')
          else none
        | _ => none
      else none
    | .OPERATOR => none
  | _ + 1, [] => none

end

/-- Parse a kinetic-law string into a binary operator tree over the shared
token stream (whitespace PUNCT tokens separate tokens and are discarded by
the parser). -/
def parseMath (s : String) : Option MExpr :=
  let toks := (tokenize s).filter fun t => !(isWhitespaceTok t)
  match parseExpr (4 * (toks.length + 1)) toks with
  | some (e, []) => some e
  | _ => none

/-- Resolve every identifier leaf by the outward scope rule; `none` is the
hard resolution error. -/
def resolveExpr (root : OMForest) (path : List String) :
    MExpr → Option MExpr
  | .ident s => (resolveRef root path s).map .ident
  | .num s => some (.num s)
  | .binop op l r =>
    match resolveExpr root path l, resolveExpr root path r with
    | some l', some r' => some (.binop op l' r')
    | _, _ => none

def opTag : String → String
  | "*" => "<times/>"
  | "+" => "<plus/>"
  | "-" => "<minus/>"
  | "/" => "<divide/>"
  | "^" => "<power/>"
  | _ => "<unknown/>"

/-- MathML serialization of the operator tree: identifier leaves become
`<ci>`, numeric leaves `<cn>`, and an operator application becomes a prefix
`<apply>` form. -/
def mathML : MExpr → String
  | .ident s => "<ci>" ++ s ++ "</ci>"
  | .num s => "<cn>" ++ s ++ "</cn>"
  | .binop op l r => "<apply>" ++ opTag op ++ mathML l ++ mathML r ++ "</apply>"

structure SBMLReaction where
  id : String
  reversible : Bool
  reactants : List String
  products : List String
  kineticMathML : String
deriving DecidableEq, Repr

/-- The SBML content the claims are about: species ids, parameter ids and
reactions in emission order (the fixed envelope — units, compartment,
model header — is omitted). -/
structure SBMLDoc where
  speciesIds : List String
  parameterIds : List String
  reactions : List SBMLReaction
deriving DecidableEq, Repr

def exportReaction (root : OMForest) (r : FlatReaction) :
    Option SBMLReaction :=
  match r.reactants.mapM (resolveRef root r.path),
      r.products.mapM (resolveRef root r.path),
      (parseMath r.kineticLaw).bind (resolveExpr root r.path) with
  | some rs, some ps, some e => some ⟨r.id, false, rs, ps, mathML e⟩
  | _, _, _ => none

/-- `OneModel.get_SBML_string`, reduced to the claim-relevant content: the
flattened species/parameter registries and each reaction exported with
resolved references and translated kinetic law.  Every reaction is
irreversible. -/
def get_SBML (root : OMForest) : Option SBMLDoc :=
  let flat := flattenForest [] root
  match flat.reactions.mapM (exportReaction root) with
  | some rs => some ⟨flat.speciesIds, flat.parameterIds, rs⟩
  | none => none

/-! ## `values/function.py`: user-defined `Function.execute`

Source lines 20–37 (`BaseFunction.check_args`), 39–51
(`populate_args` / `check_and_populate_args`) and 60–73
(`Function.execute`).  The execution context created by
`generate_new_context` carries a fresh empty symbol table (with a parent
pointer, irrelevant to the bindings added here), modelled as an association
list; the interpreter's `visit` on the body node is an opaque argument.
`RunTimeResult.register`/`should_return` bookkeeping is inlined: a failure
from `check_args` returns immediately, and a body visit whose error is set
while `func_return_value` is `None` returns the failure. -/

inductive Val where
  | null
  | num (n : Int)
  | str (s : String)
deriving DecidableEq, Repr

structure RunTimeError where
  msg : String
deriving DecidableEq, Repr

/-- What the interpreter's `visit` of the body leaves in the
`RunTimeResult`: a possible error, the visited value, and a possible
`func_return_value` set by a return statement. -/
structure VisitResult where
  error : Option RunTimeError := none
  value : Option Val := none
  funcReturnValue : Option Val := none

abbrev SymbolTable := List (String × Val)

structure OMFunction (β : Type) where
  name : String
  body_node : β
  arg_names : List String
  should_auto_return : Bool

/-- `Function.__repr__`. -/
def funcRepr (f : OMFunction β) : String := s!"<function {f.name}>"

/-- Message of the too-few-arguments failure of `check_args`. -/
def tooFewMsg (f : OMFunction β) (args : List Val) : String :=
  s!"{f.arg_names.length - args.length} too few args passed into {funcRepr f}"

/-- `BaseFunction.check_args`: too many arguments, then too few, else
success. -/
def check_args (f : OMFunction β) (args : List Val) : Option RunTimeError :=
  if args.length > f.arg_names.length then
    some ⟨s!"{args.length - f.arg_names.length} too many args passed into {funcRepr f}"⟩
  else if args.length < f.arg_names.length then
    some ⟨tooFewMsg f args⟩
  else none

/-- `BaseFunction.populate_args`: bind `arg_names[i] ↦ args[i]` for each
supplied argument into the execution context's symbol table. -/
def populate_args (argNames : List String) (args : List Val)
    (tbl : SymbolTable) : SymbolTable :=
  tbl ++ argNames.zip args

/-- `Function.execute`, returning the result together with the execution
context's symbol table (so that the bindings added to the fresh context are
observable).  `check_and_populate_args` is inlined: on a `check_args`
failure it returns before `populate_args` runs and before the body is
visited.  On the success path the Python return value
`(value if should_auto_return else None) or func_return_value or
Number.null` is modelled with option-coalescing (the truthiness of a
non-`None` `Value` is not exercised by the claims). -/
def OMFunction.execute (visit : β → SymbolTable → VisitResult)
    (f : OMFunction β) (args : List Val) :
    Except RunTimeError Val × SymbolTable :=
  let exec_ctx : SymbolTable := []
  match check_args f args with
  | some e => (.error e, exec_ctx)
  | none =>
    let ctx := populate_args f.arg_names args exec_ctx
    let r := visit f.body_node ctx
    match r.error with
    | some e =>
      if r.funcReturnValue = none then (.error e, ctx)
      else
        (.ok (((if f.should_auto_return then r.value else none).orElse
          fun _ => r.funcReturnValue).getD Val.null), ctx)
    | none =>
      (.ok (((if f.should_auto_return then r.value else none).orElse
        fun _ => r.funcReturnValue).getD Val.null), ctx)

/-! ## Claim-side renderings of the per-state artifacts

These spell out, per indexed state, the row formats the specification
claims for the `x(i,:)` bindings, the initial-condition vector, the mass
diagonal and the `dx(i,1)` rows; the theorems below compare them with the
source embeddings. -/

def bindRowClaim (p : Nat × MVariable) : String :=
  if p.2.equation.equation_type = EquationType.ODE then
    s!"{p.2.name} = x({p.1},:);\t % {p.2.comment}\n"
  else
    s!"{p.2.name} = x({p.1},:);\t % (algebraic) {p.2.comment}\n"

def x0RowClaim (v : MVariable) : String :=
  if v.equation.equation_type = EquationType.ODE then
    s!"\t{v.value} % {v.name}\n"
  else
    s!"\t{v.value} % {v.name} (Algebraic)\n"

def massEntryClaim (v : MVariable) : Nat :=
  if v.equation.equation_type = EquationType.ODE then 1 else 0

def dxRowClaim (pn vn : List String) (p : Nat × MVariable) : String :=
  if p.2.equation.equation_type = EquationType.ODE then
    s!"% der({p.2.name}) \"{p.2.equation.comment}\"\n"
      ++ s!"dx({p.1},1) = {math2matlab pn vn p.2.equation.value};\n\n"
  else
    s!"% der({p.2.name}) (algebraic) \"{p.2.equation.comment}\"\n"
      ++ s!"dx({p.1},1) = -{p.2.name} + {math2matlab pn vn p.2.equation.value};\n\n"

/-! ## Concrete instances used by the claims -/

/-- Model of spec §8: substitution variables `x = y + 1` then `y = 2`,
declared in that order, no parameters. -/
def mXY : OneModelM :=
  { name := "model"
    parameters := []
    parameters_name := []
    variables' :=
      [⟨"x", "0", "x com", ⟨.SUBSTITUTION, "y + 1", "xe"⟩⟩,
       ⟨"y", "0", "y com", ⟨.SUBSTITUTION, "2", "ye"⟩⟩]
    variables_name := ["x", "y"] }

/-- DAE states `x = y`, `y = x`: a dependency cycle, both ASSIGMENT. -/
def cycleDae : List DaeState := [⟨"x", .ASSIGMENT, "y"⟩, ⟨"y", .ASSIGMENT, "x"⟩]

/-- Variables of the §8 state-index example: two ODE states then one
ALGEBRAIC state, in that declaration order. -/
def vC7 : List MVariable :=
  [⟨"a", "0", "ca", ⟨.ODE, "1", "ea"⟩⟩,
   ⟨"b", "0", "cb", ⟨.ODE, "1", "eb"⟩⟩,
   ⟨"c", "0", "cc", ⟨.ALGEBRAIC, "1", "ec"⟩⟩]

/-- Children of the `foo` scope in `test_reference_nested`: species `B`,
parameter `k`, and reaction `J1` with reactants `[A]`, products `[B]`,
kinetic law `k*A`. -/
def fooChildren : OMForest :=
  .cons "B" (.species "0") (.cons "k" (.parameter "0")
    (.cons "J1" (.reaction ["A"] ["B"] "k*A") .nil))

/-- The root of `test_reference_nested`: scope `foo` inserted first, then
root species `A`. -/
def testTree : OMForest :=
  .cons "foo" (.scope fooChildren) (.cons "A" (.species "0") .nil)

/-- A two-argument user function used to witness the too-few-args path. -/
def wFun : OMFunction Unit := ⟨"f", (), ["a", "b"], true⟩

/-! ## Helper lemmas -/

lemma str_append_empty (s : String) : s ++ "" = s := by
  apply String.ext; simp [String.data_append]

lemma str_empty_append (s : String) : "" ++ s = s := by
  apply String.ext; simp [String.data_append]

lemma math2matlabToken_eq_spec (pn vn : List String) (t : MathToken)
    (h : t.type = MathTokenType.IDENTIFIER →
      (t.value ∈ pn ∨ t.value ∈ vn) ∧ ¬(t.value ∈ pn ∧ t.value ∈ vn)) :
    math2matlabToken pn vn t = specRewriteToken pn vn t := by
  cases t with
  | mk ty v =>
    cases ty with
    | IDENTIFIER =>
      obtain ⟨hor, hnand⟩ := h rfl
      by_cases hp : v ∈ pn
      · have hv : v ∉ vn := fun hv => hnand ⟨hp, hv⟩
        simp [math2matlabToken, specRewriteToken, hp, hv, str_append_empty]
      · have h1 : v ∈ vn := hor.resolve_left hp
        simp [math2matlabToken, specRewriteToken, hp, h1, str_empty_append]
    | OPERATOR => rfl
    | NUMBER => rfl
    | PUNCT => rfl

lemma math2matlabToken_eq_s2m (pn vn : List String) (t : MathToken)
    (hid : t.type = MathTokenType.IDENTIFIER →
      (t.value ∈ pn ∨ t.value ∈ vn) ∧ ¬(t.value ∈ pn ∧ t.value ∈ vn))
    (hop : t.type = MathTokenType.OPERATOR → t.value ≠ "+" ∧ t.value ≠ "-") :
    math2matlabToken pn vn t = string2matlabToken pn t := by
  cases t with
  | mk ty v =>
    cases ty with
    | IDENTIFIER =>
      obtain ⟨hor, hnand⟩ := hid rfl
      by_cases hp : v ∈ pn
      · have hv : v ∉ vn := fun hv => hnand ⟨hp, hv⟩
        simp [math2matlabToken, string2matlabToken, hp, hv, str_append_empty]
      · have h1 : v ∈ vn := hor.resolve_left hp
        simp [math2matlabToken, string2matlabToken, hp, h1, str_empty_append]
    | OPERATOR =>
      obtain ⟨hplus, hminus⟩ := hop rfl
      simp [math2matlabToken, string2matlabToken, hplus, hminus]
    | NUMBER => rfl
    | PUNCT => rfl

lemma dxChunks_indexed (pn vn : List String) :
    ∀ (i : Nat) (vars : List MVariable),
      dxChunks pn vn i vars = (indexedOdealg i vars).map (dxRowClaim pn vn) := by
  intro i vars
  induction vars generalizing i with
  | nil => rfl
  | cons v rest ih =>
    cases hv : v.equation.equation_type <;>
      simp [dxChunks, indexedOdealg, isOdealg, hv, dxRowClaim, ih]

lemma statesPhase1_chunks_indexed :
    ∀ (i : Nat) (vars : List MVariable),
      (statesPhase1 i vars).1 = (indexedOdealg i vars).map bindRowClaim := by
  intro i vars
  induction vars generalizing i with
  | nil => rfl
  | cons v rest ih =>
    cases hv : v.equation.equation_type <;>
      simp [statesPhase1, indexedOdealg, isOdealg, hv, bindRowClaim, ih]

lemma statesPhase1_names_indexed :
    ∀ (i : Nat) (vars : List MVariable),
      (statesPhase1 i vars).2.1 = (indexedOdealg i vars).map (fun p => p.2.name) := by
  intro i vars
  induction vars generalizing i with
  | nil => rfl
  | cons v rest ih =>
    cases hv : v.equation.equation_type <;>
      simp [statesPhase1, indexedOdealg, isOdealg, hv, ih]

lemma x0Chunks_indexed :
    ∀ (i : Nat) (vars : List MVariable),
      x0Chunks vars = (indexedOdealg i vars).map (fun p => x0RowClaim p.2) := by
  intro i vars
  induction vars generalizing i with
  | nil => rfl
  | cons v rest ih =>
    cases hv : v.equation.equation_type
    · simp [x0Chunks, indexedOdealg, isOdealg, hv, x0RowClaim, ih (i + 1)]
    · simp [x0Chunks, indexedOdealg, isOdealg, hv, x0RowClaim, ih (i + 1)]
    · simp [x0Chunks, indexedOdealg, isOdealg, hv, ih i]

lemma massDiag_indexed :
    ∀ (i : Nat) (vars : List MVariable),
      massDiag vars = (indexedOdealg i vars).map (fun p => massEntryClaim p.2) := by
  intro i vars
  induction vars generalizing i with
  | nil => rfl
  | cons v rest ih =>
    cases hv : v.equation.equation_type
    · simp [massDiag, indexedOdealg, isOdealg, hv, massEntryClaim, ih (i + 1)]
    · simp [massDiag, indexedOdealg, isOdealg, hv, massEntryClaim, ih (i + 1)]
    · simp [massDiag, indexedOdealg, isOdealg, hv, ih i]

lemma replicate_zero_getD (n j : Nat) :
    (List.replicate n (0 : Nat)).getD j 0 = 0 := by
  induction n generalizing j with
  | zero => simp [List.getD]
  | succ m ih =>
    cases j with
    | zero => rfl
    | succ j' => simp [List.replicate]

lemma row_getD (i m j d : Nat) :
    (List.replicate i 0 ++ d :: List.replicate m 0).getD j 0
      = if j = i then d else 0 := by
  induction i generalizing j with
  | zero =>
    cases j with
    | zero => rfl
    | succ j' => simp [replicate_zero_getD]
  | succ i' ih =>
    cases j with
    | zero => simp [List.replicate_succ]
    | succ j' => simpa [List.replicate] using ih j'

lemma massRows_row (M : List Nat) (i : Nat) :
    (massRows M).getD i []
      = if i < M.length then
          List.replicate i 0 ++ M.getD i 0 :: List.replicate (M.length - i - 1) 0
        else [] := by
  by_cases h : i < M.length
  · simp [massRows, List.getD, h]
  · have h0 : (List.range M.length)[i]? = none :=
      List.getElem?_eq_none (by simpa using Nat.le_of_not_lt h)
    simp [massRows, List.getD, h0]
    omega

lemma massRows_entry (M : List Nat) (i j : Nat) :
    ((massRows M).getD i []).getD j 0
      = if i = j ∧ i < M.length then M.getD i 0 else 0 := by
  rw [massRows_row]
  by_cases h : i < M.length
  · rw [if_pos h, row_getD]
    by_cases hij : i = j
    · subst hij
      simp [h]
    · simp [hij, Ne.symm hij]
  · simp [h]

lemma massRows_row_length (M : List Nat) (i : Nat) :
    ((massRows M).getD i []).length = if i < M.length then M.length else 0 := by
  rw [massRows_row]
  by_cases h : i < M.length
  · simp [h]
    omega
  · simp [h]

lemma massRows_length (M : List Nat) : (massRows M).length = M.length := by
  simp [massRows]

set_option maxRecDepth 100000 in
lemma daePass_cycle (acc : String) :
    daePass [] ["x", "y"] cycleDae [] acc = ([], acc) := rfl

set_option maxRecDepth 100000 in
lemma daeLoop_cycle_step (fuel : Nat) (acc : String) :
    daeLoop [] ["x", "y"] cycleDae 2 (fuel + 1) [] acc
      = daeLoop [] ["x", "y"] cycleDae 2 fuel [] acc := rfl

lemma daeLoop_cycle (fuel : Nat) :
    ∀ acc : String, daeLoop [] ["x", "y"] cycleDae 2 fuel [] acc = none := by
  induction fuel with
  | zero => intro acc; rfl
  | succ n ih =>
    intro acc
    rw [daeLoop_cycle_step]
    exact ih acc

/-! ## Claim theorems -/

/-- C1: for the model with root species `A` and nested scope `foo` holding
species `B`, parameter `k` and reaction `J1` (reactants `[A]`, products
`[B]`, kinetic law `k*A`), the exported SBML document has species ids
`foo__B` and `A`, parameter id `foo__k`, and an irreversible reaction
`foo__J1` whose reactant reference is `A`, whose product reference is
`foo__B`, and whose kinetic-law MathML is
`<apply><times/><ci>foo__k</ci><ci>A</ci></apply>`: `k` resolves to the
`foo`-scope parameter and `A` resolves outward to the root species. -/
theorem c1_sbml_nested_scope_export :
    get_SBML testTree
      = some ⟨["foo__B", "A"], ["foo__k"],
          [⟨"foo__J1", false, ["A"], ["foo__B"],
            "<apply><times/><ci>foo__k</ci><ci>A</ci></apply>"⟩]⟩ := rfl

/-- C2: the claim says the resolver succeeds on every model whose
substitution variables are all resolvable, emitting `y` before `x` for
`x = y + 1`, `y = 2` declared in that order.  The code instead raises: its
`advance == 0` check sits inside the scan loop, so the very first
unresolvable variable of the first pass aborts the export even though a
full scan would resolve `y`.  The spec-side resolver succeeds with order
`[y, x]` on the same model. -/
theorem c2_resolvable_substitutions_still_raise :
    states mXY
        = .error "dependencies of substitution varibles cannot be satisfied."
      ∧ specResolve mXY = .ok ["y", "x"] := ⟨rfl, rfl⟩

/-- C3: the claim says the resolver fails exactly when a full scan resolves
zero new variables, never failing while a full scan could still resolve
one, and never looping forever.  Both implementations violate this:
`export/matlab` raises on `mXY` although one full scan still resolves `y`
(second conjunct), and `sbml2dae`'s `writeLocalStates` has no failure path
at all, so on the cycle `x = y`, `y = x` its loop never terminates — for
every fuel the loop is still running (third conjunct). -/
theorem c3_failure_condition_mismatch :
    (states mXY
        = .error "dependencies of substitution varibles cannot be satisfied.")
      ∧ specScanOnce (mXY.parameters_name ++ (statesPhase1 1 mXY.variables').2.1)
          mXY.variables' = ["y"]
      ∧ ∀ (fuel : Nat) (acc : String),
          daeLoop [] ["x", "y"] cycleDae 2 fuel [] acc = none :=
  ⟨rfl, rfl, fun fuel acc => daeLoop_cycle fuel acc⟩

/-- C4 counterexample: an identifier naming neither a parameter nor a state
is dropped by `math2matlab`, not passed through unchanged as the claim
states — rewriting `"z"` with empty registries yields `""`, while the
claim-side rewrite yields `"z"`. -/
theorem c4_unknown_identifier_dropped :
    math2matlab [] [] "z" = "" ∧ specRewrite [] [] "z" = "z"
      ∧ math2matlab [] [] "z" ≠ "z" := ⟨rfl, rfl, by decide⟩

/-- C4 amended: for every expression whose identifier tokens each name a
parameter or a state (and not both), the rewrite behaves exactly as
claimed — parameter identifiers prefixed `p.`, state identifiers verbatim,
`*` `/` `^` prefixed `.`, all other tokens unchanged. -/
theorem c4_rewrite_prefixes_amended (pn vn : List String) (expr : String)
    (h : ∀ t ∈ tokenize expr, t.type = MathTokenType.IDENTIFIER →
      (t.value ∈ pn ∨ t.value ∈ vn) ∧ ¬(t.value ∈ pn ∧ t.value ∈ vn)) :
    math2matlab pn vn expr = specRewrite pn vn expr := by
  unfold math2matlab specRewrite
  congr 1
  apply List.map_congr_left
  intro t ht
  exact math2matlabToken_eq_spec pn vn t (h t ht)

/-- C4 witness: the amended theorem applied to the claim's own example
`k1/k2*A` with parameters `k1`, `k2` and state `A`, giving
`p.k1./p.k2.*A`. -/
theorem c4_rewrite_prefixes_amended_witness :
    (∀ t ∈ tokenize "k1/k2*A", t.type = MathTokenType.IDENTIFIER →
        (t.value ∈ ["k1", "k2"] ∨ t.value ∈ ["A"])
          ∧ ¬(t.value ∈ ["k1", "k2"] ∧ t.value ∈ ["A"]))
      ∧ math2matlab ["k1", "k2"] ["A"] "k1/k2*A" = "p.k1./p.k2.*A" :=
  ⟨by decide,
    (c4_rewrite_prefixes_amended ["k1", "k2"] ["A"] "k1/k2*A" (by decide)).trans rfl⟩

/-- C5: the `dx` section of `generate_ode` emits, for every ODE state, the
rewritten equation verbatim and, for every ALGEBRAIC state, the residual
form `-state + rewritten`, one row per indexed state. -/
theorem c5_ode_verbatim_algebraic_residual (pn vn : List String) (i : Nat)
    (vars : List MVariable) :
    dxChunks pn vn i vars = (indexedOdealg i vars).map (dxRowClaim pn vn) :=
  dxChunks_indexed pn vn i vars

/-- C6: one shared 1-based index over ODE/ALGEBRAIC states in declaration
order governs all the emitted artifacts: the `x(i,:)` binding lines and the
names they add to the known set, the initial-condition rows, the
mass-matrix diagonal, and the `dx(i,1)` rows all enumerate exactly
`indexedOdealg 1 vars`, so the three artifacts can never disagree about
which state occupies which index. -/
theorem c6_state_index_consistency (pn vn : List String) (vars : List MVariable) :
    (statesPhase1 1 vars).1 = (indexedOdealg 1 vars).map bindRowClaim
      ∧ (statesPhase1 1 vars).2.1 = (indexedOdealg 1 vars).map (fun p => p.2.name)
      ∧ x0Chunks vars = (indexedOdealg 1 vars).map (fun p => x0RowClaim p.2)
      ∧ massDiag vars = (indexedOdealg 1 vars).map (fun p => massEntryClaim p.2)
      ∧ dxChunks pn vn 1 vars = (indexedOdealg 1 vars).map (dxRowClaim pn vn) :=
  ⟨statesPhase1_chunks_indexed 1 vars, statesPhase1_names_indexed 1 vars,
    x0Chunks_indexed 1 vars, massDiag_indexed 1 vars,
    dxChunks_indexed pn vn 1 vars⟩

/-- C7: the emitted mass matrix is square with dimension the number of
ODE+ALGEBRAIC states, zero off the diagonal, and its diagonal is 1 per ODE
state and 0 per ALGEBRAIC state in state-index order; for the concrete
2-ODE + 1-ALGEBRAIC model the diagonal is `[1, 1, 0]` and the
initial-condition vector has exactly 3 rows. -/
theorem c7_mass_matrix_shape (vars : List MVariable) :
    ((massRows (massDiag vars)).length = (indexedOdealg 1 vars).length
      ∧ (∀ i j : Nat, ((massRows (massDiag vars)).getD i []).getD j 0
          = if i = j ∧ i < (massDiag vars).length
            then (massDiag vars).getD i 0 else 0)
      ∧ (∀ i : Nat, ((massRows (massDiag vars)).getD i []).length
          = if i < (massDiag vars).length then (massDiag vars).length else 0)
      ∧ massDiag vars = (indexedOdealg 1 vars).map (fun p => massEntryClaim p.2))
    ∧ massDiag vC7 = [1, 1, 0] ∧ (x0Chunks vC7).length = 3 := by
  refine ⟨⟨?_, ?_, ?_, massDiag_indexed 1 vars⟩, rfl, rfl⟩
  · rw [massRows_length, massDiag_indexed 1 vars, List.length_map]
  · intro i j
    exact massRows_entry _ i j
  · intro i
    exact massRows_row_length _ i

/-- Running one export operation leaves the model unchanged. -/
lemma runOp_model (m : OneModelM) (op : ExportOp) : (runOp m op).2 = m := by
  cases op <;> rfl

/-- Running a sequence of export operations leaves the model unchanged. -/
lemma runOps_model (m : OneModelM) :
    ∀ ops : List ExportOp, (runOps m ops).2 = m := by
  intro ops
  induction ops generalizing m with
  | nil => rfl
  | cons op rest ih =>
    show (runOps (runOp m op).2 rest).2 = m
    rw [runOp_model, ih]

/-- The texts of a concatenated run split at the concatenation, the second
half starting from the model the first half leaves behind. -/
lemma runOps_append (m : OneModelM) :
    ∀ a b : List ExportOp,
      (runOps m (a ++ b)).1 = (runOps m a).1 ++ (runOps (runOps m a).2 b).1 := by
  intro a b
  induction a generalizing m with
  | nil => rfl
  | cons op rest ih =>
    show (runOp m op).1 :: (runOps (runOp m op).2 (rest ++ b)).1 = _
    rw [ih]
    rfl

/-- C8: exporting twice is byte-identical and mutation-free — for every
model and every sequence of export operations (`generate_param`,
`generate_ode`, `generate_states`), running the sequence a second time
produces exactly the texts of the first run, and the run leaves the model —
in particular its `parameters_name` and `variables_name` registries —
exactly as it found it. -/
theorem c8_export_roundtrip_stable (m : OneModelM) (ops : List ExportOp) :
    (runOps m (ops ++ ops)).1 = (runOps m ops).1 ++ (runOps m ops).1
      ∧ (runOps m ops).2 = m
      ∧ (runOps m ops).2.parameters_name = m.parameters_name
      ∧ (runOps m ops).2.variables_name = m.variables_name := by
  refine ⟨?_, runOps_model m ops, ?_, ?_⟩
  · rw [runOps_append, runOps_model]
  · rw [runOps_model]
  · rw [runOps_model]

/-- C9 counterexample: the two rewrites are not the same function —
`string2matlab` surrounds `+` with spaces while `math2matlab` passes it
through, so on `a+b` (states `a`, `b`, no parameters) the outputs differ:
`a+b` versus `a + b`. -/
theorem c9_rewrites_differ_on_plus :
    math2matlab [] ["a", "b"] "a+b" = "a+b"
      ∧ string2matlab [] "a+b" = "a + b"
      ∧ math2matlab [] ["a", "b"] "a+b" ≠ string2matlab [] "a+b" :=
  ⟨rfl, rfl, by decide⟩

/-- C9 amended: on expressions with no `+`/`-` operator token and whose
identifier tokens each name a parameter or a state (and not both), the two
rewrites of the numerical backend agree, given the same parameter set. -/
theorem c9_rewrites_agree_amended (pn vn : List String) (expr : String)
    (h : ∀ t ∈ tokenize expr,
      (t.type = MathTokenType.IDENTIFIER →
        (t.value ∈ pn ∨ t.value ∈ vn) ∧ ¬(t.value ∈ pn ∧ t.value ∈ vn))
      ∧ (t.type = MathTokenType.OPERATOR → t.value ≠ "+" ∧ t.value ≠ "-")) :
    math2matlab pn vn expr = string2matlab pn expr := by
  unfold math2matlab string2matlab
  congr 1
  apply List.map_congr_left
  intro t ht
  exact math2matlabToken_eq_s2m pn vn t (fun h1 => (h t ht).1 h1)
    (fun h2 => (h t ht).2 h2)

/-- C9 witness: the amended agreement applied to `k1/k2*A` with parameters
`k1`, `k2` and state `A`; both rewrites give `p.k1./p.k2.*A`. -/
theorem c9_rewrites_agree_amended_witness :
    (∀ t ∈ tokenize "k1/k2*A",
      (t.type = MathTokenType.IDENTIFIER →
        (t.value ∈ ["k1", "k2"] ∨ t.value ∈ ["A"])
          ∧ ¬(t.value ∈ ["k1", "k2"] ∧ t.value ∈ ["A"]))
      ∧ (t.type = MathTokenType.OPERATOR → t.value ≠ "+" ∧ t.value ≠ "-"))
      ∧ math2matlab ["k1", "k2"] ["A"] "k1/k2*A" = string2matlab ["k1", "k2"] "k1/k2*A"
      ∧ string2matlab ["k1", "k2"] "k1/k2*A" = "p.k1./p.k2.*A" :=
  ⟨by decide,
    c9_rewrites_agree_amended ["k1", "k2"] ["A"] "k1/k2*A" (by decide), rfl⟩

/-- C10: calling a user-defined function with fewer arguments than
parameters fails with the too-few-args runtime error, adds no bindings to
the new execution context's symbol table (it stays empty), and never
evaluates the body — the result is identical for any two interpreters. -/
theorem c10_too_few_args_is_atomic (β : Type)
    (visit visit' : β → SymbolTable → VisitResult)
    (f : OMFunction β) (args : List Val)
    (h : args.length < f.arg_names.length) :
    OMFunction.execute visit f args
        = (.error ⟨tooFewMsg f args⟩, ([] : SymbolTable))
      ∧ OMFunction.execute visit f args = OMFunction.execute visit' f args := by
  have hgt : ¬ args.length > f.arg_names.length := by omega
  constructor
  · simp [OMFunction.execute, check_args, hgt, h]
  · simp [OMFunction.execute, check_args, hgt, h]

/-- C10 witness: a two-parameter function called with one argument fails
with `1 too few args passed into <function f>`, leaves the context empty,
and gives the same result under two different body interpreters. -/
theorem c10_too_few_args_is_atomic_witness :
    ([Val.num 1] : List Val).length < wFun.arg_names.length
      ∧ OMFunction.execute (fun _ _ => {}) wFun [Val.num 1]
          = (.error ⟨"1 too few args passed into <function f>"⟩,
              ([] : SymbolTable))
      ∧ OMFunction.execute (fun _ _ => {}) wFun [Val.num 1]
          = OMFunction.execute (fun _ _ => { error := some ⟨"boom"⟩ })
              wFun [Val.num 1] := by
  have h : ([Val.num 1] : List Val).length < wFun.arg_names.length := by decide
  have hc := c10_too_few_args_is_atomic Unit (fun _ _ => {})
    (fun _ _ => { error := some ⟨"boom"⟩ }) wFun [Val.num 1] h
  exact ⟨h, hc.1.trans (by rfl), hc.2⟩

end OneModelSpec
